import Mathlib

/-!
# Verification of the ninode-service agent core

Shallow embedding of `ninode-service.py` (the self-updating host agent):
the update orchestrator (`check_for_updates`, `download_and_replace_script`,
the `POST /update` handler `trigger_update`), the command-execution gateway
(`execute_command`), the heartbeat (`ping_server`) and the two background
loops (`ping_task`, `auto_update_task`).

External effects (HTTP responses, filesystem operations, subprocess
outcomes) are supplied by explicit oracle values, and the functions are
translated into pure Lean functions over those oracles, threading an
explicit filesystem state where the Python code mutates files on disk.
-/

namespace Ninode

/-- Build-time constant `CURRENT_VERSION = "0.1.7"` (ninode-service.py line 230). -/
def CURRENT_VERSION : String := "0.1.7"

/-! ## Version check (`check_for_updates`, lines 235-249)

The Python code performs one HTTPS GET against the GitHub releases API.
Its outcome is modelled by `RegistryResult`: either a response with a
status code and the `tag_name` field of the decoded JSON body, or an
exception raised by the transport (timeout, connection error, bad JSON —
all of which land in the single `except Exception` handler). -/

inductive RegistryResult where
  /-- The GET returned: status code and the `tag_name` of the JSON body. -/
  | ok (statusCode : Nat) (tagName : String)
  /-- The GET (or JSON decoding) raised an exception. -/
  | exc
deriving DecidableEq, Repr

/-- Python `s.lstrip("v")`: removes every leading character belonging to
the set `{'v'}` (not just one occurrence of a `"v"` prefix). -/
def lstripV (s : String) : String :=
  String.mk (s.data.dropWhile (fun c => c = 'v'))

/-- Embedding of `check_for_updates` (lines 235-249): on a 200 response, strips leading
`v` characters from the tag and returns it when it differs from
`CURRENT_VERSION`; every other outcome (non-200, exception) falls through
to `return None`. -/
def check_for_updates (reg : RegistryResult) : Option String :=
  match reg with
  | .ok statusCode tagName =>
      if statusCode = 200 then
        let latest_version := lstripV tagName
        if latest_version ≠ CURRENT_VERSION then some latest_version else none
      else none
  | .exc => none

/-! ## Filesystem model

`download_and_replace_script` touches exactly four paths, all fixed at
runtime: the service script (`script_path` — always exists, it is the
running program), its companion `mcp_server.py` (`mcp_path` — may be
absent, line 285 guards on existence), and their two `.backup` siblings
(which may persist from earlier update cycles). A file carries content
and a permission mode; `shutil.copy2` copies both. -/

structure FsFile where
  content : String
  mode : Nat
deriving DecidableEq, Repr

structure FS where
  script : FsFile
  mcp : Option FsFile
  backupScript : Option FsFile
  backupMcp : Option FsFile
deriving DecidableEq, Repr

/-- Outcome of one artifact GET in `download_and_replace_script`:
a response (status code, body text) or a transport exception. -/
inductive Dl where
  | resp (statusCode : Nat) (text : String)
  | exc
deriving DecidableEq, Repr

/-- Oracle for one run of `download_and_replace_script`: the two download
outcomes and, for each fallible filesystem/subprocess step of the write
phase, whether that step completes (`true`) or raises (`false`).
`pipOk = false` stands for an exception from the dependency-update block
that is not the `subprocess.CalledProcessError` caught at line 321. -/
structure UpdateWorld where
  getService : Dl
  getMcp : Dl
  backupScriptOk : Bool := true
  backupMcpOk : Bool := true
  writeScriptOk : Bool := true
  writeMcpOk : Bool := true
  chmodScriptOk : Bool := true
  chmodMcpOk : Bool := true
  pipOk : Bool := true
deriving DecidableEq, Repr

/-- Default creation mode for a file newly created by `open(path, "w")`
(used only when `mcp_server.py` did not exist before the update). -/
def defaultCreateMode : Nat := 0o644

/-- The `except Exception` handler of `download_and_replace_script`
(lines 333-339): `if os.path.exists(backup_script_path)` copy it over the
script, `if os.path.exists(backup_mcp_path)` copy it over the mcp file.
`shutil.copy2` restores content and mode. Note the guard is existence of
the backup *path on disk*, not membership in the current attempt. -/
def rollbackFS (fs : FS) : FS :=
  let fs1 :=
    match fs.backupScript with
    | some b => { fs with script := b }
    | none => fs
  match fs1.backupMcp with
  | some b => { fs1 with mcp := some b }
  | none => fs1

/-- Observable steps of one `download_and_replace_script` run, in the
order they complete. A step that raises emits no event. -/
inductive UEvent where
  | getServiceEv
  | getMcpEv
  | backupScriptEv
  | backupMcpEv
  | writeScriptEv
  | writeMcpEv
  | chmodScriptEv
  | chmodMcpEv
  | rollbackEv
deriving DecidableEq, Repr

/-- Continuation of `writePhase` from the first `open(path, "w")` write
(line 289) onwards, after both backups of lines 283-286 are in place. -/
def writePhaseAfterBackup (w : UpdateWorld) (serviceContent mcpContent : String)
    (fs : FS) (tr : List UEvent) : Bool × FS × List UEvent :=
  if !w.writeScriptOk then (false, rollbackFS fs, tr ++ [.rollbackEv]) else
  let fs := { fs with script := { fs.script with content := serviceContent } }
  let tr := tr ++ [UEvent.writeScriptEv]
  if !w.writeMcpOk then (false, rollbackFS fs, tr ++ [.rollbackEv]) else
  let fs := { fs with mcp := some (match fs.mcp with
    | some m => { m with content := mcpContent }
    | none => { content := mcpContent, mode := defaultCreateMode }) }
  let tr := tr ++ [UEvent.writeMcpEv]
  if !w.chmodScriptOk then (false, rollbackFS fs, tr ++ [.rollbackEv]) else
  let fs := { fs with script := { fs.script with mode := 0o755 } }
  let tr := tr ++ [UEvent.chmodScriptEv]
  if !w.chmodMcpOk then (false, rollbackFS fs, tr ++ [.rollbackEv]) else
  let fs := { fs with mcp := fs.mcp.map (fun m => { m with mode := 0o755 }) }
  let tr := tr ++ [UEvent.chmodMcpEv]
  if !w.pipOk then (false, rollbackFS fs, tr ++ [.rollbackEv]) else
  (true, fs, tr)

/-- Write phase of `download_and_replace_script` (lines 283-331), entered
only after both downloads returned 200. Steps in source order: back up the
script (line 284); back up the mcp file if it exists (lines 285-286);
write the new service content (lines 289-290); write the new mcp content
(lines 292-293); `chmod 0o755` both files (lines 296-297); run the pip
upgrade (lines 300-323). Any exception jumps to the handler modelled by
`rollbackFS` and the function returns `False`. On success it returns
`True` (and schedules the delayed restart, not modelled here). The third
component is the trace of completed steps. -/
def writePhase (w : UpdateWorld) (serviceContent mcpContent : String)
    (fs : FS) (tr : List UEvent) : Bool × FS × List UEvent :=
  if !w.backupScriptOk then (false, rollbackFS fs, tr ++ [.rollbackEv]) else
  let fs := { fs with backupScript := some fs.script }
  let tr := tr ++ [UEvent.backupScriptEv]
  match fs.mcp with
  | some m =>
      if !w.backupMcpOk then (false, rollbackFS fs, tr ++ [.rollbackEv]) else
      writePhaseAfterBackup w serviceContent mcpContent
        { fs with backupMcp := some m } (tr ++ [UEvent.backupMcpEv])
  | none => writePhaseAfterBackup w serviceContent mcpContent fs tr

/-- Embedding of `download_and_replace_script` (lines 252-340). Downloads the service
script; a non-200 status returns `False` directly (lines 267-269, no
rollback, nothing written); likewise for the mcp file (lines 277-279).
A transport exception on either GET propagates to the `except` handler,
which runs the backup-restore of lines 333-339 before returning `False`.
With both downloads at 200 the write phase runs. Returns the Python
return value, the resulting filesystem, and the step trace. -/
def download_and_replace_script (w : UpdateWorld) (fs : FS) :
    Bool × FS × List UEvent :=
  match w.getService with
  | .exc => (false, rollbackFS fs, [.rollbackEv])
  | .resp st text =>
      if st ≠ 200 then (false, fs, [.getServiceEv])
      else
        match w.getMcp with
        | .exc => (false, rollbackFS fs, [.getServiceEv, .rollbackEv])
        | .resp st2 text2 =>
            if st2 ≠ 200 then (false, fs, [.getServiceEv, .getMcpEv])
            else writePhase w text text2 fs [.getServiceEv, .getMcpEv]

/-! ## `POST /update` handler (`trigger_update`, lines 626-647) -/

inductive UpdateResponse where
  | updating (fromVersion toVersion : String)
  | upToDate (currentVersion : String)
  | httpError (statusCode : Nat)
deriving DecidableEq, Repr

/-- Embedding of `trigger_update`: runs `check_for_updates`; on `None` answers
`{"status": "up_to_date", "current_version": CURRENT_VERSION}`; on a new
version runs `download_and_replace_script`, answering `updating` on
success and HTTP 500 (`"Update download failed"`) on failure. -/
def trigger_update (reg : RegistryResult) (w : UpdateWorld) (fs : FS) :
    UpdateResponse × FS :=
  match check_for_updates reg with
  | some latest_version =>
      let r := download_and_replace_script w fs
      (if r.1 then UpdateResponse.updating CURRENT_VERSION latest_version
       else UpdateResponse.httpError 500, r.2.1)
  | none => (UpdateResponse.upToDate CURRENT_VERSION, fs)

/-! ## Command gateway (`POST /execute`, lines 583-624)

`execute_command` strips the command, checks the allowlist (403), checks
`shutil.which` (404), then runs the subprocess with `timeout=30`.
The oracle supplies the host's executable resolution (`which`) and the
subprocess outcome. The embedding additionally records two booleans that
the claims are about: whether `shutil.which` was consulted and whether a
child process was spawned. -/

/-- Python `s.strip()`: removes leading and trailing whitespace. -/
def pyStrip (s : String) : String :=
  String.mk
    (((s.data.dropWhile Char.isWhitespace).reverse.dropWhile
        Char.isWhitespace).reverse)

/-- The allowlist `ALLOWED_COMMANDS` (lines 402-418). -/
def ALLOWED_COMMANDS : List String :=
  ["ps", "df", "free", "uptime", "whoami", "uname", "hostname", "date",
   "id", "w", "who", "last", "lscpu", "lsblk", "mount"]

structure CommandRequest where
  command : String
  args : List String
deriving DecidableEq, Repr

structure CommandResponse where
  command : String
  exit_code : Int
  stdout : String
  stderr : String
deriving DecidableEq, Repr

/-- Outcome of the `subprocess.run(..., timeout=30, check=False)` call:
normal completion with exit code and captured output, `TimeoutExpired`
(in which case `subprocess.run` has killed the child and waited for it
before re-raising, per its contract), or any other exception. -/
inductive ProcOutcome where
  | completed (returncode : Int) (stdout stderr : String)
  | timedOut
  | raised
deriving DecidableEq, Repr

/-- Process-level model of the termination performed on the
`TimeoutExpired` path. The source's entire timeout handling is the
`subprocess.run(cmd_args, ..., timeout=30)` call at line 604: the child
is spawned without `start_new_session`/`preexec_fn` (so it stays in the
service's own process group), and on timeout `subprocess.run`'s contract
kills the direct child (`Popen.kill`) and waits before re-raising. The
source contains no `os.killpg`, `terminate` or other kill of its own, so
given the pid of the direct child, the set of pids the timeout path
terminates is exactly that child. -/
def timeoutKilledPids (childPid : Nat) : List Nat :=
  [childPid]

structure ExecWorld where
  /-- Resolution via `shutil.which` of a name on the executable search path. -/
  which : String → Option String
  /-- outcome of the subprocess, were one to be spawned. -/
  run : ProcOutcome

inductive ExecuteResult where
  | ok (resp : CommandResponse)
  | httpError (statusCode : Nat)
deriving DecidableEq, Repr

/-- Trace of one `execute_command` call: the HTTP-level result, whether
`shutil.which` was ever consulted, and whether a child process was
spawned. -/
structure ExecTrace where
  result : ExecuteResult
  whichConsulted : Bool
  spawned : Bool
deriving DecidableEq, Repr

/-- Embedding of `execute_command` (lines 583-624): `command = request.command.strip()`;
not in `ALLOWED_COMMANDS` → HTTP 403 (before any path resolution);
`shutil.which(command)` is falsy → HTTP 404; otherwise spawn
`[command] + args`; `TimeoutExpired` → HTTP 408; any other exception →
HTTP 500; completion → `CommandResponse` with the joined invocation,
exit code and verbatim stdout/stderr. -/
def execute_command (w : ExecWorld) (request : CommandRequest) : ExecTrace :=
  let command := pyStrip request.command
  if command ∉ ALLOWED_COMMANDS then
    { result := .httpError 403, whichConsulted := false, spawned := false }
  else if (w.which command).isNone then
    { result := .httpError 404, whichConsulted := true, spawned := false }
  else
    let cmd_args := command :: request.args
    match w.run with
    | .completed returncode stdout stderr =>
        { result := .ok { command := String.intercalate (" ") cmd_args,
                          exit_code := returncode,
                          stdout := stdout, stderr := stderr },
          whichConsulted := true, spawned := true }
    | .timedOut =>
        { result := .httpError 408, whichConsulted := true, spawned := true }
    | .raised =>
        { result := .httpError 500, whichConsulted := true, spawned := true }

/-! ## Heartbeat (`ping_server`, lines 192-226)

Inside the `async with` block every failure of the POST is caught: a
non-200 status logs and returns `False`, `httpx.TimeoutException`,
`httpx.RequestError` and any other `Exception` each return `False`; only
a 200 response returns `True`. The outcome of the POST is the oracle. -/

inductive PingOutcome where
  | resp (statusCode : Nat) (text : String)
  | timeoutExc
  | requestErr
  | otherExc
deriving DecidableEq, Repr

/-- Embedding of `ping_server` (lines 192-226), as a function of the POST outcome. -/
def ping_server (o : PingOutcome) : Bool :=
  match o with
  | .resp statusCode _ => if statusCode = 200 then true else false
  | .timeoutExc => false
  | .requestErr => false
  | .otherExc => false

/-! ## Background loops (`ping_task` lines 372-383, `auto_update_task`
lines 352-369)

Both loops are `while True: try: await asyncio.sleep(interval); <work>
except Exception as e: print(...)`. An iteration is modelled by the
outcome of its unit of work; the loop over a finite schedule of outcomes
produces an event trace. `guardIter` is the `try/except Exception`: it
turns an escaped exception into a log event and reports whether the loop
survives the iteration (with the handler present it always does). -/

inductive LoopEv where
  | sleepEv
  | workEv (detail : String)
  | errLogged (msg : String)
deriving DecidableEq, Repr

/-- Outcome of one `ping_server` call inside the loop: it returned a
boolean, or the work raised an exception `msg` (after the sleep). -/
inductive PingIter where
  | returned (success : Bool)
  | raises (msg : String)
deriving DecidableEq, Repr

/-- Body of one `ping_task` iteration, before the `except` handler:
the events it emits and the exception escaping it, if any. The body
sleeps first (line 378) and only then performs the work (line 379). -/
def ping_body (o : PingIter) : List LoopEv × Option String :=
  match o with
  | .returned true => ([.sleepEv, .workEv ("ping ok")], none)
  | .returned false =>
      ([.sleepEv, .workEv ("ping failed - server may be unreachable")], none)
  | .raises msg => ([.sleepEv], some msg)

/-- The `try/except Exception` wrapper shared by both loops: a caught
exception is logged; the returned flag says whether the loop continues
(`true` whenever the handler catches, which it always does here). -/
def guardIter (body : List LoopEv × Option String) : List LoopEv × Bool :=
  match body.2 with
  | none => (body.1, true)
  | some msg => (body.1 ++ [.errLogged msg], true)

/-- The `while True` loop of `ping_task` over a finite schedule of iteration
outcomes: each iteration runs body-then-handler; the loop recurses only
while it survives. -/
def ping_task_run : List PingIter → List LoopEv
  | [] => []
  | o :: rest =>
      let g := guardIter (ping_body o)
      g.1 ++ (if g.2 then ping_task_run rest else [])

/-- Outcome of one `auto_update_task` iteration's unit of work
(lines 363-367): the sleep, then `check_for_updates` (returning `none`
or a version), then possibly `download_and_replace_script` (returning a
boolean); or an exception escaping the unit of work. -/
inductive AutoIter where
  | checked (latest : Option String) (downloadOk : Bool)
  | raises (msg : String)
deriving DecidableEq, Repr

/-- Body of one `auto_update_task` iteration (sleep at line 363, then the
check, then the download when a version was returned). -/
def auto_body (o : AutoIter) : List LoopEv × Option String :=
  match o with
  | .checked none _ => ([.sleepEv, .workEv ("no update")], none)
  | .checked (some v) ok =>
      ([.sleepEv, .workEv ("updating to " ++ v),
        .workEv (if ok then "download ok" else "download failed")], none)
  | .raises msg => ([.sleepEv], some msg)

/-- The `while True` loop of `auto_update_task` (lines 361-369) over a finite
schedule of iteration outcomes. -/
def auto_update_loop : List AutoIter → List LoopEv
  | [] => []
  | o :: rest =>
      let g := guardIter (auto_body o)
      g.1 ++ (if g.2 then auto_update_loop rest else [])

/-- Embedding of `auto_update_task` (lines 352-369): with auto-update disabled the
function returns before entering the loop (lines 354-356); otherwise it
runs the loop. -/
def auto_update_run (enable_auto_update : Bool) (os : List AutoIter) :
    List LoopEv :=
  if enable_auto_update then auto_update_loop os else []

/-! ## Concurrent update triggers (lines 352-369 and 626-647)

The service runs on one asyncio event loop; a coroutine yields control
only at `await` expressions. Neither `trigger_update` nor
`auto_update_task` consults or sets any in-flight flag or lock before
calling `download_and_replace_script` — there is none in the source — so
two triggers can be in flight at once. Each trigger's path through an
update attempt has these suspension points: the registry GET inside
`check_for_updates`, the service-script GET (line 264) and the mcp GET
(line 274); after the second artifact GET resolves, the
backup/write/chmod block (lines 283-297) runs with no `await` inside it.

`UpdPc` is a trigger-task's program counter at its suspension points, in
the scenario where the registry reports a newer version and every GET
succeeds; a scheduler (a list of task identifiers) resumes one ready task
at a time, exactly as the event loop does. `writers` records, in order,
each task that executed its backup/write/chmod block. -/

inductive UpdPc where
  /-- about to await the registry GET inside `check_for_updates`. -/
  | start
  /-- registry returned a newer tag; about to await the service-script GET. -/
  | checked
  /-- service script downloaded; about to await the mcp GET. -/
  | gotService
  /-- mcp downloaded; the synchronous backup/write/chmod block has run and
  the attempt returned `True`. -/
  | finished
deriving DecidableEq, Repr

/-- Resuming a trigger task at its current suspension point: the next
program counter, and whether this segment executed the backup/write/chmod
block. No segment rejects the attempt: the source has no in-flight check. -/
def resumeSegment : UpdPc → UpdPc × Bool
  | .start => (.checked, false)
  | .checked => (.gotService, false)
  | .gotService => (.finished, true)
  | .finished => (.finished, false)

/-- Event-loop state for two concurrent triggers, `false` the scheduled
one (`auto_update_task`), `true` the manual one (`trigger_update`). -/
structure ConcState where
  taskA : UpdPc
  taskB : UpdPc
  writers : List Bool
deriving DecidableEq, Repr

/-- One event-loop scheduling decision: resume the named task. -/
def schedStep (s : ConcState) (who : Bool) : ConcState :=
  if who then
    let r := resumeSegment s.taskB
    { s with taskB := r.1, writers := s.writers ++ (if r.2 then [true] else []) }
  else
    let r := resumeSegment s.taskA
    { s with taskA := r.1, writers := s.writers ++ (if r.2 then [false] else []) }

/-- Run the event loop over a finite schedule. -/
def runSched (s : ConcState) : List Bool → ConcState
  | [] => s
  | who :: rest => runSched (schedStep s who) rest

/-- Both triggers arriving concurrently, neither yet resumed. -/
def concInit : ConcState :=
  { taskA := .start, taskB := .start, writers := [] }

/-- Number of triggers that have completed their attempt. -/
def doneCount (s : ConcState) : Nat :=
  (if s.taskA = UpdPc.finished then 1 else 0) +
  (if s.taskB = UpdPc.finished then 1 else 0)

/-! ## Sample inputs shared by the theorems below -/

/-- Event `a` precedes event `b` in trace `t`: whenever `b` occurs, `a` occurs among
the events strictly before the first occurrence of `b`. -/
def precedes (a b : UEvent) (t : List UEvent) : Prop :=
  b ∈ t → a ∈ t.takeWhile (fun e => e ≠ b)

/-- A pre-update filesystem: both files present and executable, no
leftover backup files. -/
def fsSample : FS :=
  { script := { content := "old service", mode := 0o755 },
    mcp := some { content := "old mcp", mode := 0o755 },
    backupScript := none, backupMcp := none }

/-- Both artifact downloads succeed and every write-phase step completes. -/
def wAllOk : UpdateWorld :=
  { getService := .resp 200 "new service", getMcp := .resp 200 "new mcp" }

/-- The service-script download answers 404; the mcp download would
succeed. -/
def wService404 : UpdateWorld :=
  { getService := .resp 404 "Not Found", getMcp := .resp 200 "new mcp" }

/-- The service-script download succeeds; the mcp download answers 404. -/
def wMcp404 : UpdateWorld :=
  { getService := .resp 200 "new service", getMcp := .resp 404 "Not Found" }

/-- A pre-update filesystem whose files carry no executable permission
bits (mode `0o644`). -/
def fsNoExec : FS :=
  { script := { content := "old service", mode := 0o644 },
    mcp := some { content := "old mcp", mode := 0o644 },
    backupScript := none, backupMcp := none }

/-- A pre-update filesystem with a stale backup of the service script
left on disk by an earlier update cycle. -/
def fsStaleBackup : FS :=
  { script := { content := "current service", mode := 0o755 },
    mcp := some { content := "current mcp", mode := 0o755 },
    backupScript := some { content := "stale service", mode := 0o755 },
    backupMcp := none }

/-- The service-script download raises a transport exception. -/
def wServiceExc : UpdateWorld :=
  { getService := .exc, getMcp := .resp 200 "new mcp" }

/-- Both downloads succeed but writing the new mcp content raises. -/
def wWriteMcpFails : UpdateWorld :=
  { getService := .resp 200 "new service", getMcp := .resp 200 "new mcp",
    writeMcpOk := false }

/-! # Theorems -/

/-- C7. For every heartbeat iteration, `ping_server` returns a
boolean (in the embedding it is a total function of the POST outcome, so
it cannot raise past its own scope): it returns `true` exactly when the
controller's ping endpoint answers HTTP 200, and `false` on every
transport timeout, request error, other exception, or non-200 response. -/
theorem ping_server_true_iff_http200 (o : PingOutcome) :
    ping_server o = true ↔ ∃ text, o = PingOutcome.resp 200 text := by
  cases o with
  | resp st text =>
      constructor
      · intro h
        refine ⟨text, ?_⟩
        by_cases hst : st = 200
        · rw [hst]
        · simp [ping_server, hst] at h
      · rintro ⟨t, ht⟩
        cases ht
        simp [ping_server]
  | timeoutExc => simp [ping_server]
  | requestErr => simp [ping_server]
  | otherExc => simp [ping_server]

/-- C4. The (stripped) command name is validated against
`ALLOWED_COMMANDS` before any path resolution: a non-allowlisted name
yields HTTP 403 with `shutil.which` never consulted and no child process
spawned, whatever the host's executable search path holds; an allowlisted
name that `which` does not resolve yields HTTP 404 with no child process
spawned. -/
theorem execute_validates_allowlist_first (w : ExecWorld)
    (request : CommandRequest) :
    (pyStrip request.command ∉ ALLOWED_COMMANDS →
      execute_command w request =
        { result := .httpError 403, whichConsulted := false,
          spawned := false }) ∧
    (pyStrip request.command ∈ ALLOWED_COMMANDS →
      w.which (pyStrip request.command) = none →
      execute_command w request =
        { result := .httpError 404, whichConsulted := true,
          spawned := false }) := by
  constructor
  · intro h
    simp [execute_command, h]
  · intro h1 h2
    simp [execute_command, h1, h2]

/-- Witness for C4: `rm` (the spec's own scenario `/execute {"command":
"rm", "args": ["-rf","/"]}`) is rejected with 403 and no spawn; `ps` on a
host without a `ps` binary is rejected with 404 and no spawn. -/
theorem execute_validates_allowlist_first_witness :
    execute_command { which := fun _ => none, run := .completed 0 "" "" }
        { command := "rm", args := ["-rf", "/"] } =
      { result := .httpError 403, whichConsulted := false,
        spawned := false } ∧
    execute_command { which := fun _ => none, run := .completed 0 "" "" }
        { command := "ps", args := [] } =
      { result := .httpError 404, whichConsulted := true,
        spawned := false } :=
  ⟨(execute_validates_allowlist_first _ _).1 (by decide),
   (execute_validates_allowlist_first _ _).2 (by decide) rfl⟩

/-- C5 counterexample. A timed-out `ps` whose direct child (pid 100) has
spawned a helper (pid 101) into the same process group: the timeout path
terminates exactly the direct child, so pid 101 — a member of the
child's process group — survives. The code does not terminate the
child's process group (it has no `killpg` or any kill of its own; the
child even shares the service's own group, which the service plainly
does not kill). The HTTP 408 and absence of a success result do hold at
this input. -/
theorem execute_timeout_kill_counterexample :
    timeoutKilledPids 100 = [100] ∧
    101 ∈ ([100, 101] : List Nat) ∧
    101 ∉ timeoutKilledPids 100 ∧
    execute_command { which := fun _ => some "/bin/ps", run := .timedOut }
        { command := "ps", args := ["aux"] } =
      { result := .httpError 408, whichConsulted := true,
        spawned := true } := by
  decide

/-- C5 amended. When the spawned child has not exited within the timeout
— the `subprocess.TimeoutExpired` branch — the only termination
performed is the one inside `subprocess.run`'s contract: the direct
child process is killed, not its process group (the source creates no
new process group and contains no `killpg`); `execute_command` answers
HTTP 408 and never returns a `CommandResponse` as success. -/
theorem execute_timeout_kills_child_only_408 (w : ExecWorld)
    (request : CommandRequest) (childPid : Nat)
    (hAllowed : pyStrip request.command ∈ ALLOWED_COMMANDS)
    (hFound : (w.which (pyStrip request.command)).isSome = true)
    (hRun : w.run = ProcOutcome.timedOut) :
    (∀ p, p ∈ timeoutKilledPids childPid → p = childPid) ∧
    execute_command w request =
      { result := .httpError 408, whichConsulted := true, spawned := true } ∧
    ∀ resp : CommandResponse,
      (execute_command w request).result ≠ ExecuteResult.ok resp := by
  obtain ⟨p, hp⟩ := Option.isSome_iff_exists.mp hFound
  refine ⟨?_, ?_, ?_⟩
  · intro q hq
    simpa [timeoutKilledPids] using hq
  · simp [execute_command, hAllowed, hp, hRun]
  · intro resp
    simp [execute_command, hAllowed, hp, hRun]

/-- C2. A non-200 response on either artifact aborts the whole
attempt with `False` before any file on disk is written: the resulting
filesystem is exactly the pre-attempt one (so every target file's content
is byte-identical to its pre-attempt content), and the trace holds no
backup, write, chmod or rollback step. -/
theorem download_aborts_before_write_on_non200 (w : UpdateWorld) (fs : FS) :
    (∀ st text, w.getService = Dl.resp st text → st ≠ 200 →
      download_and_replace_script w fs = (false, fs, [UEvent.getServiceEv])) ∧
    (∀ text st2 text2, w.getService = Dl.resp 200 text →
      w.getMcp = Dl.resp st2 text2 → st2 ≠ 200 →
      download_and_replace_script w fs =
        (false, fs, [UEvent.getServiceEv, UEvent.getMcpEv])) := by
  constructor
  · intro st text hg hst
    simp [download_and_replace_script, hg, hst]
  · intro text st2 text2 hg hm hst2
    simp [download_and_replace_script, hg, hm, hst2]

/-- Witness for C2: a 404 on the service script, and a 404 on the mcp
file, each abort the attempt leaving `fsSample` untouched. -/
theorem download_aborts_before_write_on_non200_witness :
    download_and_replace_script wService404 fsSample =
      (false, fsSample, [UEvent.getServiceEv]) ∧
    download_and_replace_script wMcp404 fsSample =
      (false, fsSample, [UEvent.getServiceEv, UEvent.getMcpEv]) :=
  ⟨(download_aborts_before_write_on_non200 wService404 fsSample).1
      404 "Not Found" rfl (by decide),
   (download_aborts_before_write_on_non200 wMcp404 fsSample).2
      ("new service") 404 "Not Found" rfl rfl (by decide)⟩

/-- C10. The version check conflates a failed registry check with
being up to date: a non-200 registry response, a registry exception, and
a tag (v-stripped) equal to `CURRENT_VERSION` all make `check_for_updates`
return `None`, so `POST /update` answers
`{"status": "up_to_date", "current_version": CURRENT_VERSION}` with zero
filesystem writes in all three cases — the caller cannot distinguish
them. -/
theorem update_check_failure_indistinguishable (st : Nat) (tag : String)
    (w : UpdateWorld) (fs : FS) (hst : st ≠ 200) :
    trigger_update (RegistryResult.ok st tag) w fs =
      (UpdateResponse.upToDate CURRENT_VERSION, fs) ∧
    trigger_update RegistryResult.exc w fs =
      (UpdateResponse.upToDate CURRENT_VERSION, fs) ∧
    trigger_update (RegistryResult.ok 200 CURRENT_VERSION) w fs =
      (UpdateResponse.upToDate CURRENT_VERSION, fs) := by
  have hv : lstripV CURRENT_VERSION = CURRENT_VERSION := by decide
  refine ⟨?_, ?_, ?_⟩
  · simp [trigger_update, check_for_updates, hst]
  · simp [trigger_update, check_for_updates]
  · simp [trigger_update, check_for_updates, hv]

/-- Witness for C10: a 500 from the registry, a registry exception, and
the current tag all produce the identical `up_to_date` response on
`fsSample`, unchanged. -/
theorem update_check_failure_indistinguishable_witness :
    trigger_update (RegistryResult.ok 500 "") wAllOk fsSample =
      (UpdateResponse.upToDate CURRENT_VERSION, fsSample) ∧
    trigger_update RegistryResult.exc wAllOk fsSample =
      (UpdateResponse.upToDate CURRENT_VERSION, fsSample) ∧
    trigger_update (RegistryResult.ok 200 CURRENT_VERSION) wAllOk fsSample =
      (UpdateResponse.upToDate CURRENT_VERSION, fsSample) :=
  update_check_failure_indistinguishable 500 "" wAllOk fsSample (by decide)

/-- C6 counterexample. The tag `"v0.1.7"` differs from
`CURRENT_VERSION = "0.1.7"` by exact string inequality, yet
`check_for_updates` returns `None` and `POST /update` answers
`up_to_date` with no update triggered: the code compares
`tag_name.lstrip("v")`, not the raw tag, so not every differing tag is
treated as newer. -/
theorem version_check_counterexample :
    "v0.1.7" ≠ CURRENT_VERSION ∧
    check_for_updates (RegistryResult.ok 200 "v0.1.7") = none ∧
    trigger_update (RegistryResult.ok 200 "v0.1.7") wAllOk fsSample =
      (UpdateResponse.upToDate CURRENT_VERSION, fsSample) := by
  decide

/-- C6 amended. The check compares the registry tag with all leading
`v` characters stripped to `CURRENT_VERSION` by exact string inequality
(no semantic-version ordering): on a 200 registry response it reports the
stripped tag exactly when that stripped tag differs from
`CURRENT_VERSION`; when the stripped tag equals `CURRENT_VERSION`,
`POST /update` answers `{"status": "up_to_date", "current_version":
CURRENT_VERSION}` and performs zero filesystem writes. -/
theorem version_check_strips_v_then_compares_exactly (tag : String)
    (w : UpdateWorld) (fs : FS) :
    check_for_updates (RegistryResult.ok 200 tag) =
      (if lstripV tag = CURRENT_VERSION then none else some (lstripV tag)) ∧
    (lstripV tag = CURRENT_VERSION →
      trigger_update (RegistryResult.ok 200 tag) w fs =
        (UpdateResponse.upToDate CURRENT_VERSION, fs)) := by
  constructor
  · by_cases h : lstripV tag = CURRENT_VERSION <;>
      simp [check_for_updates, h]
  · intro h
    simp [trigger_update, check_for_updates, h]

/-- Witness for C6 amended: the v-prefixed current tag yields
`up_to_date` and an unchanged filesystem. -/
theorem version_check_strips_v_then_compares_exactly_witness :
    trigger_update (RegistryResult.ok 200 "v0.1.7") wAllOk fsSample =
      (UpdateResponse.upToDate CURRENT_VERSION, fsSample) :=
  (version_check_strips_v_then_compares_exactly ("v0.1.7") wAllOk fsSample).2
    (by decide)

/-- C9 counterexample. A fully successful update of files whose
original mode is `0o644` (no executable bits anywhere) leaves the
replaced script with mode `0o755`: lines 296-297 apply the fixed mode
`0o755`, they do not restore the original file's executable permission
bits. -/
theorem replace_chmod_counterexample :
    (download_and_replace_script wAllOk fsNoExec).1 = true ∧
    fsNoExec.script.mode &&& 0o111 = 0 ∧
    (download_and_replace_script wAllOk fsNoExec).2.1.script.mode &&& 0o111 =
      0o111 := by
  decide

/-- Witness for C5 amended: `ps` resolved at `/bin/ps`, direct child pid
100 exceeds the 30s timeout: only pid 100 is terminated, HTTP 408, and
no success result. -/
theorem execute_timeout_kills_child_only_408_witness :
    (∀ p, p ∈ timeoutKilledPids 100 → p = 100) ∧
    execute_command { which := fun _ => some "/bin/ps", run := .timedOut }
        { command := "ps", args := ["aux"] } =
      { result := .httpError 408, whichConsulted := true, spawned := true } ∧
    ∀ resp : CommandResponse,
      (execute_command { which := fun _ => some "/bin/ps", run := .timedOut }
          { command := "ps", args := ["aux"] }).result ≠
        ExecuteResult.ok resp :=
  execute_timeout_kills_child_only_408 _ _ 100 (by decide) rfl rfl

/-- Helper: a successful write phase leaves both files with the fixed
mode `0o755` applied by lines 296-297. -/
lemma writePhase_success_mode (w : UpdateWorld) (s m : String) (fs : FS)
    (tr : List UEvent) (h : (writePhase w s m fs tr).1 = true) :
    (writePhase w s m fs tr).2.1.script.mode = 0o755 ∧
    ∀ f, (writePhase w s m fs tr).2.1.mcp = some f → f.mode = 0o755 := by
  rcases w with ⟨gs, gm, b1, b2, w1, w2, c1, c2, p⟩
  rcases fs with ⟨sc, mcpOpt, bs, bm⟩
  cases b1 <;> cases b2 <;> cases w1 <;> cases w2 <;> cases c1 <;>
    cases c2 <;> cases p <;> cases mcpOpt <;>
    simp_all [writePhase, writePhaseAfterBackup]

/-- C9 amended. During the Replacing step of a successful update the
replaced files' permissions are set to the fixed mode `0o755`
(`os.chmod(path, 0o755)`, lines 296-297) regardless of the original
file's permission bits — not restored to the original file's executable
bits. -/
theorem replace_sets_fixed_mode_0755 (w : UpdateWorld) (fs : FS)
    (h : (download_and_replace_script w fs).1 = true) :
    (download_and_replace_script w fs).2.1.script.mode = 0o755 ∧
    ∀ f, (download_and_replace_script w fs).2.1.mcp = some f →
      f.mode = 0o755 := by
  cases hgs : w.getService with
  | exc => simp [download_and_replace_script, hgs] at h
  | resp st text =>
    by_cases hst : st = 200
    · subst hst
      cases hgm : w.getMcp with
      | exc => simp [download_and_replace_script, hgs, hgm] at h
      | resp st2 text2 =>
        by_cases hst2 : st2 = 200
        · subst hst2
          have h2 : (writePhase w text text2 fs
              [UEvent.getServiceEv, UEvent.getMcpEv]).1 = true := by
            simpa [download_and_replace_script, hgs, hgm] using h
          have h3 := writePhase_success_mode w text text2 fs
            [UEvent.getServiceEv, UEvent.getMcpEv] h2
          simpa [download_and_replace_script, hgs, hgm] using h3
        · simp [download_and_replace_script, hgs, hgm, hst2] at h
    · simp [download_and_replace_script, hgs, hst] at h

/-- Witness for C9 amended: the successful update of `fsSample`
(original modes `0o755`) ends with both files at mode `0o755`. -/
theorem replace_sets_fixed_mode_0755_witness :
    (download_and_replace_script wAllOk fsSample).2.1.script.mode = 0o755 ∧
    ∀ f, (download_and_replace_script wAllOk fsSample).2.1.mcp = some f →
      f.mode = 0o755 :=
  replace_sets_fixed_mode_0755 wAllOk fsSample (by decide)

/-- C3 counterexample. The service-script GET raises a transport
exception while a stale `.backup` file from an earlier cycle exists on
disk. The trace is `[rollbackEv]`: this attempt created no backup and
wrote no file before failing — yet after the attempt the script's
content differs from its pre-attempt content, because the handler at
lines 336-337 restores from any backup path that exists on disk. A file
never touched by the attempt is not left unchanged. -/
theorem rollback_stale_backup_counterexample :
    (download_and_replace_script wServiceExc fsStaleBackup).2.2 =
      [UEvent.rollbackEv] ∧
    (download_and_replace_script wServiceExc fsStaleBackup).1 = false ∧
    (download_and_replace_script wServiceExc fsStaleBackup).2.1.script.content
      ≠ fsStaleBackup.script.content := by
  decide

/-- Helper: the write phase, started on a filesystem with no leftover
backups, backs a file up before overwriting it, and on failure restores
script and mcp to their pre-attempt state. -/
lemma writePhase_props (w : UpdateWorld) (s m : String) (sc : FsFile)
    (mcpOpt : Option FsFile) :
    precedes UEvent.backupScriptEv UEvent.writeScriptEv
      (writePhase w s m ⟨sc, mcpOpt, none, none⟩
        [UEvent.getServiceEv, UEvent.getMcpEv]).2.2 ∧
    (mcpOpt.isSome = true →
      precedes UEvent.backupMcpEv UEvent.writeMcpEv
        (writePhase w s m ⟨sc, mcpOpt, none, none⟩
          [UEvent.getServiceEv, UEvent.getMcpEv]).2.2) ∧
    ((writePhase w s m ⟨sc, mcpOpt, none, none⟩
        [UEvent.getServiceEv, UEvent.getMcpEv]).1 = false →
      (writePhase w s m ⟨sc, mcpOpt, none, none⟩
        [UEvent.getServiceEv, UEvent.getMcpEv]).2.1.script = sc ∧
      ∀ f, mcpOpt = some f →
        (writePhase w s m ⟨sc, mcpOpt, none, none⟩
          [UEvent.getServiceEv, UEvent.getMcpEv]).2.1.mcp = some f) := by
  rcases w with ⟨gs, gm, b1, b2, w1, w2, c1, c2, p⟩
  cases b1 <;> cases b2 <;> cases w1 <;> cases w2 <;> cases c1 <;>
    cases c2 <;> cases p <;> cases mcpOpt <;>
    simp_all [writePhase, writePhaseAfterBackup, rollbackFS, precedes,
      List.takeWhile]

/-- C3 amended. Provided no leftover backup files from earlier
attempts exist when the attempt starts: a backup of a file is created
before that file is overwritten (in the step trace, `backupScriptEv`
precedes `writeScriptEv`, and `backupMcpEv` precedes `writeMcpEv`
whenever the mcp file pre-exists); on any failure the rollback leaves the
service script — and the mcp file, when it pre-existed — byte-identical
(content and mode) to its pre-attempt state; and the `POST /update`
handler then reports HTTP 500 to the caller. (Without that proviso the
claim fails: see the stale-backup counterexample.) -/
theorem backup_precedes_write_rollback_restores (w : UpdateWorld) (fs : FS)
    (hbs : fs.backupScript = none) (hbm : fs.backupMcp = none) :
    precedes UEvent.backupScriptEv UEvent.writeScriptEv
      (download_and_replace_script w fs).2.2 ∧
    (fs.mcp.isSome = true →
      precedes UEvent.backupMcpEv UEvent.writeMcpEv
        (download_and_replace_script w fs).2.2) ∧
    ((download_and_replace_script w fs).1 = false →
      (download_and_replace_script w fs).2.1.script = fs.script ∧
      (∀ f, fs.mcp = some f →
        (download_and_replace_script w fs).2.1.mcp = some f) ∧
      ∀ reg v, check_for_updates reg = some v →
        (trigger_update reg w fs).1 = UpdateResponse.httpError 500) := by
  have htrig : (download_and_replace_script w fs).1 = false →
      ∀ reg v, check_for_updates reg = some v →
        (trigger_update reg w fs).1 = UpdateResponse.httpError 500 := by
    intro hf reg v hc
    simp [trigger_update, hc, hf]
  obtain ⟨sc, mcpOpt, bs, bm⟩ := fs
  dsimp only at hbs hbm
  subst hbs
  subst hbm
  cases hgs : w.getService with
  | exc =>
    refine ⟨?_, ?_, fun hf => ⟨?_, ?_, htrig hf⟩⟩ <;>
      simp [download_and_replace_script, hgs, rollbackFS, precedes]
  | resp st text =>
    by_cases hst : st = 200
    · subst hst
      cases hgm : w.getMcp with
      | exc =>
        refine ⟨?_, ?_, fun hf => ⟨?_, ?_, htrig hf⟩⟩ <;>
          simp [download_and_replace_script, hgs, hgm, rollbackFS, precedes]
      | resp st2 text2 =>
        by_cases hst2 : st2 = 200
        · subst hst2
          have hp := writePhase_props w text text2 sc mcpOpt
          have hd : download_and_replace_script w
              ⟨sc, mcpOpt, none, none⟩ =
              writePhase w text text2 ⟨sc, mcpOpt, none, none⟩
                [UEvent.getServiceEv, UEvent.getMcpEv] := by
            simp [download_and_replace_script, hgs, hgm]
          rw [hd]
          exact ⟨hp.1, hp.2.1, fun hf =>
            ⟨(hp.2.2 hf).1, (hp.2.2 hf).2, by rw [← hd] at hf; exact htrig hf⟩⟩
        · refine ⟨?_, ?_, fun hf => ⟨?_, ?_, htrig hf⟩⟩ <;>
            simp [download_and_replace_script, hgs, hgm, hst2, precedes]
    · refine ⟨?_, ?_, fun hf => ⟨?_, ?_, htrig hf⟩⟩ <;>
        simp [download_and_replace_script, hgs, hst, precedes]

/-- Witness for C3 amended: with no stale backups, an attempt whose mcp
write raises fails and leaves both files exactly as before the attempt. -/
theorem backup_precedes_write_rollback_restores_witness :
    (download_and_replace_script wWriteMcpFails fsSample).1 = false ∧
    (download_and_replace_script wWriteMcpFails fsSample).2.1.script =
      fsSample.script ∧
    (download_and_replace_script wWriteMcpFails fsSample).2.1.mcp =
      some { content := "old mcp", mode := 0o755 } :=
  ⟨by decide,
   ((backup_precedes_write_rollback_restores wWriteMcpFails fsSample
      rfl rfl).2.2 (by decide)).1,
   ((backup_precedes_write_rollback_restores wWriteMcpFails fsSample
      rfl rfl).2.2 (by decide)).2.1 _ rfl⟩

/-- C1 counterexample. Interleaved schedule A,B,A,B,A,B (the event
loop alternating between the scheduled trigger A and the manual trigger
B): both tasks run to completion, the backup/write/chmod block executes
twice (`writers = [A, B]`), and neither trigger is rejected — there is no
in-flight flag in the source. It is false that at most one attempt
executes its download/backup/replace sequence. -/
theorem concurrent_triggers_counterexample :
    (runSched concInit [false, true, false, true, false, true]).taskA =
      UpdPc.finished ∧
    (runSched concInit [false, true, false, true, false, true]).taskB =
      UpdPc.finished ∧
    (runSched concInit [false, true, false, true, false, true]).writers =
      [false, true] ∧
    ¬(runSched concInit
        [false, true, false, true, false, true]).writers.length ≤ 1 := by
  decide

/-- Helper: one scheduling step grows the writers list exactly when it
completes a task. -/
lemma schedStep_writers (s : ConcState) (who : Bool) :
    (schedStep s who).writers.length + doneCount s =
      s.writers.length + doneCount (schedStep s who) := by
  cases who <;> rcases s with ⟨a, b, ws⟩ <;> cases a <;> cases b <;>
    simp [schedStep, resumeSegment, doneCount]

/-- Helper: along any schedule, the number of executed
backup/write/chmod blocks equals the number of completed triggers. -/
lemma runSched_writers (sched : List Bool) (s : ConcState) :
    (runSched s sched).writers.length + doneCount s =
      s.writers.length + doneCount (runSched s sched) := by
  induction sched generalizing s with
  | nil => simp [runSched]
  | cons who rest ih =>
      have h1 := schedStep_writers s who
      have h2 := ih (schedStep s who)
      simp only [runSched]
      omega

/-- C1 amended. The code enforces no mutual exclusion between the
scheduled and the manual update trigger: neither path checks an
in-flight flag, so a second trigger is never rejected, and every
event-loop schedule that drives both concurrent triggers to completion
executes the download/backup/replace write block exactly twice — once
per trigger. (Within the single-threaded event loop each attempt's
backup/write/chmod block is a single segment between awaits, so the two
blocks do not interleave with each other, but both run.) -/
theorem concurrent_triggers_both_execute (sched : List Bool)
    (hA : (runSched concInit sched).taskA = UpdPc.finished)
    (hB : (runSched concInit sched).taskB = UpdPc.finished) :
    (runSched concInit sched).writers.length = 2 := by
  have h := runSched_writers sched concInit
  simp only [doneCount] at h
  rw [hA, hB] at h
  simp only [concInit] at h ⊢
  simp at h
  omega

/-- Witness for C1 amended: the alternating schedule completes both
triggers and records two executions of the write block. -/
theorem concurrent_triggers_both_execute_witness :
    (runSched concInit
      [false, true, false, true, false, true]).writers.length = 2 :=
  concurrent_triggers_both_execute [false, true, false, true, false, true]
    (by decide) (by decide)

/-- Helper: every `ping_task` iteration contributes exactly one sleep
event and never terminates the loop. -/
lemma ping_task_run_count (pos : List PingIter) :
    (ping_task_run pos).count LoopEv.sleepEv = pos.length := by
  induction pos with
  | nil => simp [ping_task_run]
  | cons o rest ih =>
      cases o with
      | returned b =>
          cases b <;> simp [ping_task_run, guardIter, ping_body, ih]
      | raises msg => simp [ping_task_run, guardIter, ping_body, ih]

/-- Helper: every `auto_update_task` iteration contributes exactly one
sleep event and never terminates the loop. -/
lemma auto_update_loop_count (aos : List AutoIter) :
    (auto_update_loop aos).count LoopEv.sleepEv = aos.length := by
  induction aos with
  | nil => simp [auto_update_loop]
  | cons o rest ih =>
      cases o with
      | checked latest ok =>
          cases latest <;> simp [auto_update_loop, guardIter, auto_body, ih]
      | raises msg => simp [auto_update_loop, guardIter, auto_body, ih]

/-- C8. For both background loops: every iteration sleeps first and
only then performs its unit of work (the body's first event is the
sleep); an exception raised by the work is caught by the in-loop handler
and logged, and the loop goes on with the next iteration — over any
finite schedule of iteration outcomes each loop performs exactly one
sleep per scheduled iteration, so no failed iteration ever terminates
it. -/
theorem loops_sleep_then_work_and_survive_errors
    (pos : List PingIter) (aos : List AutoIter) :
    (ping_task_run pos).count LoopEv.sleepEv = pos.length ∧
    (auto_update_run true aos).count LoopEv.sleepEv = aos.length ∧
    (∀ o, (ping_body o).1.head? = some LoopEv.sleepEv) ∧
    (∀ o, (auto_body o).1.head? = some LoopEv.sleepEv) ∧
    (∀ msg rest, ping_task_run (PingIter.raises msg :: rest) =
      LoopEv.sleepEv :: LoopEv.errLogged msg :: ping_task_run rest) ∧
    (∀ msg rest, auto_update_loop (AutoIter.raises msg :: rest) =
      LoopEv.sleepEv :: LoopEv.errLogged msg :: auto_update_loop rest) := by
  refine ⟨ping_task_run_count pos, ?_, ?_, ?_, ?_, ?_⟩
  · simpa [auto_update_run] using auto_update_loop_count aos
  · intro o
    cases o with
    | returned b => cases b <;> simp [ping_body]
    | raises msg => simp [ping_body]
  · intro o
    cases o with
    | checked latest ok => cases latest <;> simp [auto_body]
    | raises msg => simp [auto_body]
  · intro msg rest
    simp [ping_task_run, guardIter, ping_body]
  · intro msg rest
    simp [auto_update_loop, guardIter, auto_body]

end Ninode
